import Mathlib

/-!
Shallow embedding of dali/operators/decoder/audio/audio_decoder_op.cc
(operator AudioDecoder, class AudioDecoderCpu) and proofs of the spec claims.

Pieces of the repository that the file audio_decoder_op.cc calls but whose
code is not part of the source tree under verification (DecodedAudioShape and
DecodeAudio from audio_decoder_impl.h, the worker pool join of ThreadPool)
are modelled from the specification; their doc comments say so.
Machine floats of the C++ code are modelled as exact rationals.
-/

namespace DALI

/-- Output data types the operator supports (DALI_INT16, DALI_INT32, DALI_FLOAT). -/
inductive DALIDataType where
  | INT16
  | INT32
  | FLOAT
deriving DecidableEq, Repr, Inhabited

/-- Metadata returned by opening one encoded sample: frame count, native sampling
rate and channel count. -/
structure AudioMetadata where
  length : Nat
  sample_rate : ℚ
  channels : Nat
deriving DecidableEq, Repr, Inhabited

/-- Configuration state of AudioDecoderCpu used by SetupImpl, DecodeSample and
DecodeBatch: the downmix flag, the requested output type and whether the
sample_rate argument was given. -/
structure AudioDecoderCpu where
  downmix_ : Bool
  output_type_ : DALIDataType
  use_resampling_ : Bool
deriving DecidableEq, Repr, Inhabited

/-- Line 65: decode_type_ = (use_resampling_ AND not downmix_) ? DALI_FLOAT : output_type_. -/
def decode_type_ (op : AudioDecoderCpu) : DALIDataType :=
  if op.use_resampling_ && !op.downmix_ then DALIDataType.FLOAT else op.output_type_

/-- Line 101: target_sr = use_resampling_ ? target_sample_rates_[i] : meta.sample_rate. -/
def target_sr (op : AudioDecoderCpu) (rate : ℚ) (meta : AudioMetadata) : ℚ :=
  if op.use_resampling_ then rate else meta.sample_rate

/-- Line 102: should_resample = target_sr != meta.sample_rate. -/
def should_resample (op : AudioDecoderCpu) (rate : ℚ) (meta : AudioMetadata) : Bool :=
  target_sr op rate meta != meta.sample_rate

/-- Line 103: should_downmix = meta.channels > 1 AND downmix_. -/
def should_downmix (op : AudioDecoderCpu) (meta : AudioMetadata) : Bool :=
  decide (meta.channels > 1) && op.downmix_

/-- Line 106: the type-conversion test is_same of OutputType and DecoderOutputType,
negated: a conversion is needed when the two representations differ. -/
def needs_convert (OutputType DecoderOutputType : DALIDataType) : Bool :=
  OutputType != DecoderOutputType

/-- Lines 104-107: decode_scratch_sz is meta.length * meta.channels elements when the
sample needs resampling, downmixing or a type conversion, and 0 otherwise. -/
def decode_scratch_sz (op : AudioDecoderCpu) (rate : ℚ) (meta : AudioMetadata)
    (OutputType DecoderOutputType : DALIDataType) : Nat :=
  if should_resample op rate meta || should_downmix op meta
      || needs_convert OutputType DecoderOutputType then
    meta.length * meta.channels
  else 0

/-- Line 112: out_channels = should_downmix ? 1 : meta.channels. -/
def out_channels (op : AudioDecoderCpu) (meta : AudioMetadata) : Nat :=
  if should_downmix op meta then 1 else meta.channels

/-- Lines 113-114: resample_scratch_sz is meta.length * out_channels elements when the
sample needs resampling, and 0 otherwise. -/
def resample_scratch_sz (op : AudioDecoderCpu) (rate : ℚ) (meta : AudioMetadata) : Nat :=
  if should_resample op rate meta then meta.length * out_channels op meta else 0

/-- Where DecodeAudio writes the raw decoder output. -/
inductive DecodeDest where
  | directOutput
  | scratchBuffer
deriving DecidableEq, Repr

/-- Modelled from the spec: DecodeAudio lives in audio_decoder_impl.h, which is not
under src. Spec 4.5 step 2: when the sample needs no resample, no downmix and no type
conversion, decode directly into the sample output region; otherwise decode into the
worker decode scratch buffer. -/
def decode_destination (should_res should_down needs_conv : Bool) : DecodeDest :=
  if should_res || should_down || needs_conv then DecodeDest.scratchBuffer
  else DecodeDest.directOutput

/-- Modelled from the spec: the output-length formula of ShapeCalculator
(OutputLength / DecodedAudioShape, declared in audio_decoder_impl.h, not under src).
Spec 4.1: if resampling is requested the output length is
round(native_length * target_rate / native_rate), otherwise the native length.
The call site passes -1 as the no-resampling sentinel and the external interface
treats a rate of 0 as no resampling for that sample, so resampling is requested
exactly when the target rate passed is positive. -/
def output_length (meta : AudioMetadata) (target_sample_rate : ℚ) : ℤ :=
  if 0 < target_sample_rate then
    round ((meta.length : ℚ) * target_sample_rate / meta.sample_rate)
  else
    (meta.length : ℤ)

/-- Modelled from the spec: DecodedAudioShape is declared in audio_decoder_impl.h,
not under src. Spec 4.1: the shape is [output_length] when downmix is requested and
[output_length, channels] otherwise. -/
def DecodedAudioShape (meta : AudioMetadata) (target_sample_rate : ℚ)
    (downmix : Bool) : List ℤ :=
  if downmix then [output_length meta target_sample_rate]
  else [output_length meta target_sample_rate, (meta.channels : ℤ)]

/-- One raw input sample of the batch: the shape of its byte tensor and the source
label returned by GetSourceInfo. -/
structure RawSample where
  shape : List Nat
  source_info : String
deriving DecidableEq, Repr, Inhabited

/-- The raw input batch: the per-sample tensors and whether the element type of the
input TensorList is uint8. -/
structure InputBatch where
  samples : List RawSample
  elem_is_uint8 : Bool
deriving DecidableEq, Repr, Inhabited

/-- Errors SetupImpl can raise: the two DALI_ENFORCE checks of lines 58 and 60, and
a failure of AudioDecoderBase.Open during the metadata loop. -/
inductive SetupError where
  | InputShapeError
  | InputTypeError
  | OpenError (msg : String)
deriving DecidableEq, Repr

/-- One entry of output_desc: the per-sample shapes and the element type. -/
structure OutputDesc where
  shapes : List (List ℤ)
  dtype : DALIDataType
deriving DecidableEq, Repr, Inhabited

/-- The state SetupImpl leaves behind: the two output descriptors, sample_meta_,
files_names_ and the decoder output representation chosen for each sample. -/
structure SetupResult where
  output_desc : List OutputDesc
  sample_meta : List AudioMetadata
  files_names : List String
  decoder_types : List DALIDataType
deriving DecidableEq, Repr, Inhabited

/-- The Open loop of lines 79-89: open every sample in order, stopping at the first
decoder failure. -/
def openAll (openf : Nat → Except String AudioMetadata) :
    List Nat → Except SetupError (List AudioMetadata)
  | [] => Except.ok []
  | i :: rest =>
    match openf i with
    | Except.error e => Except.error (SetupError.OpenError e)
    | Except.ok m =>
      match openAll openf rest with
      | Except.error e => Except.error e
      | Except.ok ms => Except.ok (m :: ms)

/-- Lines 51-94, AudioDecoderCpu.SetupImpl: validate that every raw sample is 1D
(line 58) and that the input is uint8 (line 60); select decode_type_ and build one
decoder per sample (lines 65-69); open every sample, record its metadata and source
label, and derive the two output descriptors: decoded data shaped by
DecodedAudioShape with element type output_type_, and one float scalar of shape [1]
per sample for the sampling rate (lines 71-92). The decoders are represented by the
oracle openf giving each sample index its Open outcome. -/
def SetupImpl (op : AudioDecoderCpu) (target_sample_rates_ : Nat → ℚ)
    (input : InputBatch) (openf : Nat → Except String AudioMetadata) :
    Except SetupError SetupResult :=
  let batch_size := input.samples.length
  if input.samples.all (fun s => s.shape.length == 1) then
    if input.elem_is_uint8 then
      match openAll openf (List.range batch_size) with
      | Except.error e => Except.error e
      | Except.ok metas =>
        let shape_data := (List.range batch_size).map (fun i =>
          DecodedAudioShape (metas.getD i default)
            (if op.use_resampling_ then target_sample_rates_ i else -1) op.downmix_)
        let shape_rate := (List.range batch_size).map (fun _ => ([1] : List ℤ))
        Except.ok
          { output_desc := [⟨shape_data, op.output_type_⟩, ⟨shape_rate, DALIDataType.FLOAT⟩]
            sample_meta := metas
            files_names := input.samples.map (fun s => s.source_info)
            decoder_types := (List.range batch_size).map (fun _ => decode_type_ op) }
    else Except.error SetupError.InputTypeError
  else Except.error SetupError.InputShapeError

/-- Lines 141-149, the body of one work unit of DecodeBatch: run DecodeSample for
sample i and, only when it returns, write the resolved sampling rate
(target_sample_rates_[i] when use_resampling_, else the native rate, lines 144-146);
a DALIException thrown by the pipeline is caught at the unit boundary and wrapped by
DALI_FAIL with the sample source label and the underlying message (line 148). The
decode pipeline outcome is represented by the oracle decode_result. -/
def runUnit (op : AudioDecoderCpu) (target_sample_rates_ : Nat → ℚ)
    (sample_meta_ : Nat → AudioMetadata) (files_names_ : Nat → String)
    (decode_result : Nat → Except String Unit) (i : Nat) : Except String ℚ :=
  match decode_result i with
  | Except.ok _ =>
    Except.ok (if op.use_resampling_ then target_sample_rates_ i
               else (sample_meta_ i).sample_rate)
  | Except.error e =>
    Except.error ("Error decoding file " ++ files_names_ i ++ ". Error: " ++ e)

/-- The error the join point re-raises: the first unit failure, if any. -/
def firstError : List (Except String ℚ) → Option String
  | [] => none
  | Except.ok _ :: rest => firstError rest
  | Except.error e :: _ => some e

/-- The observable outcome of DecodeBatch: per-sample sampling-rate slots (none when
the slot was never written) and the batch call result. -/
structure BatchOutcome where
  rate_slots : List (Option ℚ)
  result : Except String Unit
deriving Repr

/-- Lines 130-154, AudioDecoderCpu.DecodeBatch: submit one independent unit per
sample; slot i of the sampling-rate output holds a value exactly when unit i
succeeded. Modelled from the spec for the part outside src: the worker pool join
(ThreadPool.RunAll) re-raises a failure observed among the units, here the first
one, aborting the batch call. -/
def DecodeBatch (op : AudioDecoderCpu) (target_sample_rates_ : Nat → ℚ)
    (sample_meta_ : Nat → AudioMetadata) (files_names_ : Nat → String)
    (decode_result : Nat → Except String Unit) (batch_size : Nat) : BatchOutcome :=
  let units := (List.range batch_size).map
    (runUnit op target_sample_rates_ sample_meta_ files_names_ decode_result)
  { rate_slots := units.map (fun u => u.toOption)
    result := match firstError units with
      | some e => Except.error e
      | none => Except.ok () }

/-- Whether a sample needs any post-processing in the sense of spec 4.5 step 1:
a resample, a downmix, or a conversion between the native decode representation
(decode_type_) and the requested output representation (output_type_). -/
def needs_postprocessing (op : AudioDecoderCpu) (rate : ℚ) (meta : AudioMetadata) : Bool :=
  should_resample op rate meta || should_downmix op meta ||
    needs_convert op.output_type_ (decode_type_ op)

/-! Concrete fixtures used to evaluate the theorems on closed inputs. -/

/-- Configuration resampling to a given rate, no downmix, float output. -/
def opResample : AudioDecoderCpu := ⟨false, DALIDataType.FLOAT, true⟩

/-- Configuration downmixing to mono, int16 output, no resampling. -/
def opDownmix : AudioDecoderCpu := ⟨true, DALIDataType.INT16, false⟩

/-- Configuration with no resampling and no downmix, float output. -/
def opPlain : AudioDecoderCpu := ⟨false, DALIDataType.FLOAT, false⟩

/-- A mono 16 kHz sample of 1000 frames. -/
def metaMono : AudioMetadata := ⟨1000, 16000, 1⟩

/-- A stereo 44.1 kHz sample of 441 frames. -/
def metaStereo : AudioMetadata := ⟨441, 44100, 2⟩

/-- A stereo 16 kHz sample of 1000 frames. -/
def metaPlain : AudioMetadata := ⟨1000, 16000, 2⟩

/-- A one-sample raw batch of 1D uint8 data. -/
def inputMono : InputBatch := ⟨[⟨[4], "clip0.wav"⟩], true⟩

/-- A second one-sample raw batch of 1D uint8 data. -/
def inputStereo : InputBatch := ⟨[⟨[4], "clip1.wav"⟩], true⟩

/-- A third one-sample raw batch of 1D uint8 data. -/
def inputPlain : InputBatch := ⟨[⟨[4], "clip2.wav"⟩], true⟩

/-- The plan SetupImpl builds for opResample at 8 kHz on inputMono / metaMono. -/
def planResample : SetupResult :=
  { output_desc := [⟨[[500, 1]], DALIDataType.FLOAT⟩, ⟨[[1]], DALIDataType.FLOAT⟩]
    sample_meta := [metaMono]
    files_names := ["clip0.wav"]
    decoder_types := [DALIDataType.FLOAT] }

/-- The plan SetupImpl builds for opDownmix on inputStereo / metaStereo. -/
def planDownmix : SetupResult :=
  { output_desc := [⟨[[441]], DALIDataType.INT16⟩, ⟨[[1]], DALIDataType.FLOAT⟩]
    sample_meta := [metaStereo]
    files_names := ["clip1.wav"]
    decoder_types := [DALIDataType.INT16] }

/-- The plan SetupImpl builds for opPlain on inputPlain / metaPlain. -/
def planPlain : SetupResult :=
  { output_desc := [⟨[[1000, 2]], DALIDataType.FLOAT⟩, ⟨[[1]], DALIDataType.FLOAT⟩]
    sample_meta := [metaPlain]
    files_names := ["clip2.wav"]
    decoder_types := [DALIDataType.FLOAT] }

/-! Helper lemmas shared by the claim proofs. -/

theorem range_getD {n i : Nat} (h : i < n) : (List.range n).getD i 0 = i := by
  simp [List.getD_eq_getElem?_getD, List.getElem?_range, h]

theorem getD_map_range {α : Type} (f : Nat → α) {n i : Nat} (h : i < n) (d : α) :
    ((List.range n).map f).getD i d = f i := by
  simp [List.getD_eq_getElem?_getD, List.getElem?_map, List.getElem?_range, h]

theorem openAll_ok_spec {openf : Nat → Except String AudioMetadata} :
    ∀ {l : List Nat} {ms : List AudioMetadata}, openAll openf l = Except.ok ms →
      ms.length = l.length ∧
      ∀ i, i < l.length → openf (l.getD i 0) = Except.ok (ms.getD i default) := by
  intro l
  induction l with
  | nil =>
    intro ms h
    simp only [openAll] at h
    cases h
    simp
  | cons a rest ih =>
    intro ms h
    simp only [openAll] at h
    cases hf : openf a with
    | error e => rw [hf] at h; cases h
    | ok m =>
      rw [hf] at h
      cases hr : openAll openf rest with
      | error e => rw [hr] at h; cases h
      | ok ms0 =>
        rw [hr] at h
        cases h
        obtain ⟨ihlen, ihget⟩ := ih hr
        refine ⟨by simp [ihlen], ?_⟩
        intro i hilt
        cases i with
        | zero => simpa using hf
        | succ j =>
          simp only [List.getD_cons_succ]
          exact ihget j (by simpa using hilt)

theorem SetupImpl_ok_inv {op : AudioDecoderCpu} {rates : Nat → ℚ} {input : InputBatch}
    {openf : Nat → Except String AudioMetadata} {res : SetupResult}
    (h : SetupImpl op rates input openf = Except.ok res) :
    input.samples.all (fun s => s.shape.length == 1) = true ∧
    input.elem_is_uint8 = true ∧
    ∃ metas, openAll openf (List.range input.samples.length) = Except.ok metas ∧
      res = { output_desc := [⟨(List.range input.samples.length).map (fun i =>
                  DecodedAudioShape (metas.getD i default)
                    (if op.use_resampling_ then rates i else -1) op.downmix_),
                op.output_type_⟩,
              ⟨(List.range input.samples.length).map (fun _ => ([1] : List ℤ)),
                DALIDataType.FLOAT⟩]
              sample_meta := metas
              files_names := input.samples.map (fun s => s.source_info)
              decoder_types :=
                (List.range input.samples.length).map (fun _ => decode_type_ op) } := by
  unfold SetupImpl at h
  by_cases h1 : input.samples.all (fun s => s.shape.length == 1) = true
  · rw [if_pos h1] at h
    by_cases h2 : input.elem_is_uint8 = true
    · rw [if_pos h2] at h
      cases h3 : openAll openf (List.range input.samples.length) with
      | error e => rw [h3] at h; cases h
      | ok metas =>
        rw [h3] at h
        cases h
        exact ⟨h1, h2, metas, rfl, rfl⟩
    · rw [if_neg h2] at h; cases h
  · rw [if_neg h1] at h; cases h

theorem DecodeBatch_rate_slot (op : AudioDecoderCpu) (rates : Nat → ℚ)
    (metas : Nat → AudioMetadata) (names : Nat → String)
    (dr : Nat → Except String Unit) {n i : Nat} (hi : i < n) :
    (DecodeBatch op rates metas names dr n).rate_slots[i]? =
      some (runUnit op rates metas names dr i).toOption := by
  simp [DecodeBatch, List.getElem?_map, List.getElem?_range, hi]

theorem firstError_some_of_mem_error :
    ∀ {units : List (Except String ℚ)} {e : String}, Except.error e ∈ units →
      ∃ e0, firstError units = some e0 ∧ Except.error e0 ∈ units := by
  intro units
  induction units with
  | nil => intro e h; cases h
  | cons u rest ih =>
    intro e hmem
    cases u with
    | error e1 => exact ⟨e1, rfl, List.mem_cons_self _ _⟩
    | ok q =>
      rcases List.mem_cons.mp hmem with h | h
      · cases h
      · obtain ⟨e0, h1, h2⟩ := ih h
        exact ⟨e0, by simpa [firstError] using h1, List.mem_cons_of_mem _ h2⟩

/-! The claims. -/

/-- C1: for every sample in the batch, the planned output length computed during the
Plan phase (SetupImpl) is round(native_length * target_rate / native_rate) when
resampling is requested for that sample (the sample_rate argument is given and the
target rate for the sample is positive), and the native length when no resampling is
requested. -/
theorem C1_planned_output_length (op : AudioDecoderCpu) (rates : Nat → ℚ)
    (input : InputBatch) (openf : Nat → Except String AudioMetadata)
    (res : SetupResult) (i : Nat)
    (h : SetupImpl op rates input openf = Except.ok res)
    (hi : i < input.samples.length) :
    openf i = Except.ok (res.sample_meta.getD i default) ∧
    ((res.output_desc.getD 0 default).shapes.getD i []).headD 0 =
      (if op.use_resampling_ = true ∧ 0 < rates i then
        round (((res.sample_meta.getD i default).length : ℚ) * rates i /
          (res.sample_meta.getD i default).sample_rate)
      else ((res.sample_meta.getD i default).length : ℤ)) := by
  obtain ⟨h1, h2, metas, hopen, hres⟩ := SetupImpl_ok_inv h
  obtain ⟨hlen, hget⟩ := openAll_ok_spec hopen
  subst hres
  have hin : i < (List.range input.samples.length).length := by simpa using hi
  have hgi := hget i hin
  rw [range_getD hi] at hgi
  refine ⟨hgi, ?_⟩
  simp only [List.getD_cons_zero, getD_map_range _ hi]
  cases hu : op.use_resampling_ with
  | false =>
    cases hd : op.downmix_ <;>
      simp [DecodedAudioShape, output_length, show ¬((0 : ℚ) < -1) by norm_num]
  | true =>
    by_cases hri : 0 < rates i <;>
      cases hd : op.downmix_ <;>
        simp [DecodedAudioShape, output_length, hri]

/-- C2: for every sample, the decoded-data output tensor planned by SetupImpl is the
one-dimensional shape [output_length] when downmix is requested, and the
two-dimensional shape [output_length, channels] with the native channel count when
downmix is not requested. -/
theorem C2_planned_output_shape (op : AudioDecoderCpu) (rates : Nat → ℚ)
    (input : InputBatch) (openf : Nat → Except String AudioMetadata)
    (res : SetupResult) (i : Nat)
    (h : SetupImpl op rates input openf = Except.ok res)
    (hi : i < input.samples.length) :
    openf i = Except.ok (res.sample_meta.getD i default) ∧
    (res.output_desc.getD 0 default).shapes.getD i [] =
      (if op.downmix_ = true then
        [output_length (res.sample_meta.getD i default)
          (if op.use_resampling_ then rates i else -1)]
      else
        [output_length (res.sample_meta.getD i default)
          (if op.use_resampling_ then rates i else -1),
         ((res.sample_meta.getD i default).channels : ℤ)]) := by
  obtain ⟨h1, h2, metas, hopen, hres⟩ := SetupImpl_ok_inv h
  obtain ⟨hlen, hget⟩ := openAll_ok_spec hopen
  subst hres
  have hin : i < (List.range input.samples.length).length := by simpa using hi
  have hgi := hget i hin
  rw [range_getD hi] at hgi
  refine ⟨hgi, ?_⟩
  simp only [List.getD_cons_zero, getD_map_range _ hi]
  cases hd : op.downmix_ <;> simp [DecodedAudioShape]

/-- Witness for C1: one mono 16 kHz sample of 1000 frames, resampled to 8 kHz, is
planned with round(1000 * 8000 / 16000) = 500 output frames. -/
theorem C1_witness :
    SetupImpl opResample (fun _ => 8000) inputMono (fun _ => Except.ok metaMono) =
      Except.ok planResample ∧
    (Except.ok metaMono : Except String AudioMetadata) =
      Except.ok (planResample.sample_meta.getD 0 default) ∧
    ((planResample.output_desc.getD 0 default).shapes.getD 0 []).headD 0 =
      (if opResample.use_resampling_ = true ∧ 0 < ((fun _ => (8000 : ℚ)) 0) then
        round (((planResample.sample_meta.getD 0 default).length : ℚ) *
          ((fun _ => (8000 : ℚ)) 0) / (planResample.sample_meta.getD 0 default).sample_rate)
      else ((planResample.sample_meta.getD 0 default).length : ℤ)) := by
  have hsetup : SetupImpl opResample (fun _ => 8000) inputMono (fun _ => Except.ok metaMono) =
      Except.ok planResample := by
    simp [SetupImpl, openAll, DecodedAudioShape, output_length, decode_type_,
      opResample, inputMono, metaMono, planResample, List.range_succ]
    norm_num [round_eq]
  have h := C1_planned_output_length opResample (fun _ => 8000) inputMono
    (fun _ => Except.ok metaMono) planResample 0 hsetup (by simp [inputMono])
  exact ⟨hsetup, by exact h.1, by exact h.2⟩

/-- Witness for C2: a stereo sample with downmix requested is planned 1D with shape
[441]; without the downmix flag the same theorem gives the 2D branch. -/
theorem C2_witness :
    SetupImpl opDownmix (fun _ => 0) inputStereo (fun _ => Except.ok metaStereo) =
      Except.ok planDownmix ∧
    (Except.ok metaStereo : Except String AudioMetadata) =
      Except.ok (planDownmix.sample_meta.getD 0 default) ∧
    (planDownmix.output_desc.getD 0 default).shapes.getD 0 [] =
      (if opDownmix.downmix_ = true then
        [output_length (planDownmix.sample_meta.getD 0 default)
          (if opDownmix.use_resampling_ then ((fun _ => (0 : ℚ)) 0) else -1)]
      else
        [output_length (planDownmix.sample_meta.getD 0 default)
          (if opDownmix.use_resampling_ then ((fun _ => (0 : ℚ)) 0) else -1),
         ((planDownmix.sample_meta.getD 0 default).channels : ℤ)]) := by
  have hsetup : SetupImpl opDownmix (fun _ => 0) inputStereo (fun _ => Except.ok metaStereo) =
      Except.ok planDownmix := by rfl
  have h := C2_planned_output_shape opDownmix (fun _ => 0) inputStereo
    (fun _ => Except.ok metaStereo) planDownmix 0 hsetup (by simp [inputStereo])
  exact ⟨hsetup, by exact h.1, by exact h.2⟩

/-- Counterexample for C3: the sample_rate argument is given and the per-sample
entry for the only sample is 0, which per the external interface means no resampling
is requested for that sample; the native rate is 16000, yet lines 144-146 write the
0 entry, not the native rate, into the sampling-rate slot. -/
theorem C3_counterexample :
    ¬ ((0 : ℚ) < 0) ∧
    metaMono.sample_rate = 16000 ∧
    (DecodeBatch opResample (fun _ => 0) (fun _ => metaMono) (fun _ => "clip0.wav")
      (fun _ => Except.ok ()) 1).rate_slots[0]? = some (some 0) ∧
    (some (some (0 : ℚ)) : Option (Option ℚ)) ≠ some (some 16000) := by
  refine ⟨by norm_num, rfl, ?_, by decide⟩
  decide

/-- C3 amended: for every successfully decoded sample, the value written into its
slot of the sampling-rate output equals the sample's entry of the target-rate array
whenever the sample_rate argument was given (even when that entry is 0, i.e. no
resampling is requested for that sample, or equals the native rate), and equals the
sample's native rate when the sample_rate argument was absent; in particular a
resampled sample gets its target rate. -/
theorem C3_sample_rate_written (op : AudioDecoderCpu) (rates : Nat → ℚ)
    (metas : Nat → AudioMetadata) (names : Nat → String)
    (dr : Nat → Except String Unit) (n i : Nat)
    (hi : i < n) (hok : dr i = Except.ok ()) :
    (op.use_resampling_ = true →
      (DecodeBatch op rates metas names dr n).rate_slots[i]? = some (some (rates i))) ∧
    (op.use_resampling_ = false →
      (DecodeBatch op rates metas names dr n).rate_slots[i]? =
        some (some ((metas i).sample_rate))) ∧
    (should_resample op (rates i) (metas i) = true →
      (DecodeBatch op rates metas names dr n).rate_slots[i]? =
        some (some (rates i))) := by
  have hslot := DecodeBatch_rate_slot op rates metas names dr hi
  simp only [runUnit, hok] at hslot
  refine ⟨?_, ?_, ?_⟩
  · intro huse
    rw [hslot]
    simp [Except.toOption, huse]
  · intro huse
    rw [hslot]
    simp [Except.toOption, huse]
  · intro hr
    have huse : op.use_resampling_ = true := by
      by_contra hcon
      simp only [Bool.not_eq_true] at hcon
      simp [should_resample, target_sr, hcon] at hr
    rw [hslot]
    simp [Except.toOption, huse]

/-- Witness for the amended C3: a sample resampled to 8 kHz writes 8000 into its
sampling-rate slot. -/
theorem C3_amended_witness :
    opResample.use_resampling_ = true ∧
    (DecodeBatch opResample (fun _ => 8000) (fun _ => metaMono) (fun _ => "clip0.wav")
      (fun _ => Except.ok ()) 1).rate_slots[0]? = some (some 8000) :=
  ⟨rfl,
   (C3_sample_rate_written opResample (fun _ => 8000) (fun _ => metaMono)
     (fun _ => "clip0.wav") (fun _ => Except.ok ()) 1 0 (by decide) rfl).1 rfl⟩

/-- C8: a decode failure of sample i is caught at its unit boundary and wrapped with
the source label of sample i and the underlying cause, the join point re-raises a
wrapped per-sample error, and the batch call does not succeed. -/
theorem C8_unit_failure_aborts_batch (op : AudioDecoderCpu) (rates : Nat → ℚ)
    (metas : Nat → AudioMetadata) (names : Nat → String)
    (dr : Nat → Except String Unit) (n i : Nat) (e : String)
    (hi : i < n) (he : dr i = Except.error e) :
    runUnit op rates metas names dr i =
      Except.error ("Error decoding file " ++ names i ++ ". Error: " ++ e) ∧
    (DecodeBatch op rates metas names dr n).result ≠ Except.ok () ∧
    ∃ j c, j < n ∧ dr j = Except.error c ∧
      (DecodeBatch op rates metas names dr n).result =
        Except.error ("Error decoding file " ++ names j ++ ". Error: " ++ c) := by
  have hunit : runUnit op rates metas names dr i =
      Except.error ("Error decoding file " ++ names i ++ ". Error: " ++ e) := by
    simp [runUnit, he]
  have hmem : (Except.error ("Error decoding file " ++ names i ++ ". Error: " ++ e) :
      Except String ℚ) ∈ (List.range n).map (runUnit op rates metas names dr) :=
    List.mem_map.mpr ⟨i, List.mem_range.mpr hi, hunit⟩
  obtain ⟨e0, hfe, hmem0⟩ := firstError_some_of_mem_error hmem
  obtain ⟨j, hj, hrun⟩ := List.mem_map.mp hmem0
  have hjn : j < n := List.mem_range.mp hj
  have hres : (DecodeBatch op rates metas names dr n).result = Except.error e0 := by
    simp [DecodeBatch, hfe]
  cases hdj : dr j with
  | ok u =>
    rw [runUnit, hdj] at hrun
    cases hrun
  | error c =>
    rw [runUnit, hdj] at hrun
    have he0 : e0 = "Error decoding file " ++ names j ++ ". Error: " ++ c := by
      cases hrun
      rfl
    refine ⟨hunit, by rw [hres]; simp, j, c, hjn, hdj, by rw [hres, he0]⟩

/-- Witness for C8: a batch whose only sample fails decoding produces the wrapped
error and an unsuccessful batch result. -/
theorem C8_witness :
    runUnit opPlain (fun _ => 0) (fun _ => metaPlain) (fun _ => "clip2.wav")
      (fun _ => Except.error "corrupt header") 0 =
      Except.error ("Error decoding file " ++ "clip2.wav" ++ ". Error: " ++
        "corrupt header") ∧
    (DecodeBatch opPlain (fun _ => 0) (fun _ => metaPlain) (fun _ => "clip2.wav")
      (fun _ => Except.error "corrupt header") 1).result ≠ Except.ok () := by
  have h := C8_unit_failure_aborts_batch opPlain (fun _ => 0) (fun _ => metaPlain)
    (fun _ => "clip2.wav") (fun _ => Except.error "corrupt header") 1 0
    "corrupt header" (by decide) rfl
  exact ⟨by exact h.1, h.2.1⟩

/-- C10: the sampling-rate slot of a sample is written exactly when DecodeSample for
that sample returns successfully; a failing unit leaves its slot unwritten. -/
theorem C10_rate_slot_written_iff_success (op : AudioDecoderCpu) (rates : Nat → ℚ)
    (metas : Nat → AudioMetadata) (names : Nat → String)
    (dr : Nat → Except String Unit) (n i : Nat) (hi : i < n) :
    (∀ e, dr i = Except.error e →
      (DecodeBatch op rates metas names dr n).rate_slots[i]? = some none) ∧
    (dr i = Except.ok () →
      (DecodeBatch op rates metas names dr n).rate_slots[i]? =
        some (some (if op.use_resampling_ then rates i else (metas i).sample_rate))) := by
  have hslot := DecodeBatch_rate_slot op rates metas names dr hi
  constructor
  · intro e he
    rw [hslot]
    simp [runUnit, he, Except.toOption]
  · intro hok
    rw [hslot]
    simp [runUnit, hok, Except.toOption]

/-- Witness for C10: the failing sample of a one-sample batch has an unwritten
sampling-rate slot. -/
theorem C10_witness :
    (DecodeBatch opPlain (fun _ => 0) (fun _ => metaPlain) (fun _ => "clip2.wav")
      (fun _ => Except.error "bad payload") 1).rate_slots[0]? = some none :=
  (C10_rate_slot_written_iff_success opPlain (fun _ => 0) (fun _ => metaPlain)
    (fun _ => "clip2.wav") (fun _ => Except.error "bad payload") 1 0 (by decide)).1
    "bad payload" rfl

/-- Counterexample for C4: the native decode representation is not a function of the
requested output type and of whether the sample needs post-processing. Two samples
with requested type INT16 that both need post-processing get different
representations: with resampling enabled and no downmix the decoder runs on float,
while with downmix requested and no resampling it runs on int16. -/
theorem C4_counterexample :
    ¬ ∃ F : DALIDataType → Bool → DALIDataType,
      ∀ (op : AudioDecoderCpu) (rate : ℚ) (meta : AudioMetadata),
        decode_type_ op = F op.output_type_ (needs_postprocessing op rate meta) := by
  rintro ⟨F, hF⟩
  have hA := hF ⟨false, DALIDataType.INT16, true⟩ 8000 ⟨1000, 16000, 1⟩
  have hB := hF ⟨true, DALIDataType.INT16, false⟩ 8000 ⟨1000, 16000, 2⟩
  rw [show needs_postprocessing ⟨false, DALIDataType.INT16, true⟩ 8000
      ⟨1000, 16000, 1⟩ = true by decide] at hA
  rw [show needs_postprocessing ⟨true, DALIDataType.INT16, false⟩ 8000
      ⟨1000, 16000, 2⟩ = true by decide] at hB
  rw [show decode_type_ ⟨false, DALIDataType.INT16, true⟩ = DALIDataType.FLOAT
      by decide] at hA
  rw [show decode_type_ ⟨true, DALIDataType.INT16, false⟩ = DALIDataType.INT16
      by decide] at hB
  exact absurd (hA.trans hB.symm) (by decide)

/-- C4 amended: the concrete native decode representation is selected once per batch
during SetupImpl, the same for every sample, as a function of the requested output
type, the resampling flag and the downmix flag: float when resampling is enabled and
downmix is not requested, otherwise the requested output type. -/
theorem C4_decode_type_selection (op : AudioDecoderCpu) (rates : Nat → ℚ)
    (input : InputBatch) (openf : Nat → Except String AudioMetadata)
    (res : SetupResult)
    (h : SetupImpl op rates input openf = Except.ok res) :
    res.decoder_types =
      (List.range input.samples.length).map (fun _ => decode_type_ op) ∧
    decode_type_ op =
      (if op.use_resampling_ && !op.downmix_ then DALIDataType.FLOAT
       else op.output_type_) := by
  obtain ⟨h1, h2, metas, hopen, hres⟩ := SetupImpl_ok_inv h
  subst hres
  exact ⟨rfl, rfl⟩

/-- Witness for the amended C4: the downmix configuration with INT16 output decodes
natively on int16 for its single sample. -/
theorem C4_witness :
    SetupImpl opDownmix (fun _ => 0) inputStereo (fun _ => Except.ok metaStereo) =
      Except.ok planDownmix ∧
    planDownmix.decoder_types =
      (List.range inputStereo.samples.length).map (fun _ => decode_type_ opDownmix) := by
  have hsetup : SetupImpl opDownmix (fun _ => 0) inputStereo
      (fun _ => Except.ok metaStereo) = Except.ok planDownmix := by rfl
  exact ⟨hsetup, (C4_decode_type_selection opDownmix (fun _ => 0) inputStereo
    (fun _ => Except.ok metaStereo) planDownmix hsetup).1⟩

/-- Counterexample for C5: the resample scratch buffer of a mono 1000-frame 16 kHz
sample resampled to 8 kHz has 1000 elements (native_length * out_channels), not
output_length * out_channels = 500 as the claim states. -/
theorem C5_counterexample :
    should_resample opResample 8000 metaMono = true ∧
    resample_scratch_sz opResample 8000 metaMono = 1000 ∧
    output_length metaMono 8000 * (out_channels opResample metaMono : ℤ) = 500 ∧
    (1000 : ℤ) ≠ 500 := by
  refine ⟨by decide, by decide, ?_, by decide⟩
  rw [show out_channels opResample metaMono = 1 by decide]
  rw [show output_length metaMono 8000 = round ((1000 : ℚ) * 8000 / 16000) by
    norm_num [output_length, metaMono]]
  norm_num [round_eq]

/-- C5 amended: for every sample that needs resampling, the resample scratch buffer
handed to the resampling stage has native_length * output_channels elements, where
output_channels is 1 when the sample is downmixed and its native channel count
otherwise. -/
theorem C5_resample_scratch_size (op : AudioDecoderCpu) (rate : ℚ)
    (meta : AudioMetadata) (h : should_resample op rate meta = true) :
    resample_scratch_sz op rate meta = meta.length * out_channels op meta ∧
    out_channels op meta = (if should_downmix op meta then 1 else meta.channels) :=
  ⟨by simp [resample_scratch_sz, h], rfl⟩

/-- Witness for the amended C5: the resampled mono sample gets a 1000-element
resample scratch buffer. -/
theorem C5_witness :
    resample_scratch_sz opResample 8000 metaMono =
      metaMono.length * out_channels opResample metaMono ∧
    out_channels opResample metaMono =
      (if should_downmix opResample metaMono then 1 else metaMono.channels) :=
  C5_resample_scratch_size opResample 8000 metaMono (by decide)

/-- C6: a sample that needs no resample, no downmix and no type conversion is decoded
directly into its output region with a decode scratch buffer of size 0; otherwise the
decode goes through the worker decode scratch buffer of native_length * channels
elements. -/
theorem C6_decode_scratch_routing (op : AudioDecoderCpu) (rate : ℚ)
    (meta : AudioMetadata) (OutputType DecoderOutputType : DALIDataType) :
    (should_resample op rate meta = false → should_downmix op meta = false →
      needs_convert OutputType DecoderOutputType = false →
      decode_scratch_sz op rate meta OutputType DecoderOutputType = 0 ∧
      decode_destination (should_resample op rate meta) (should_downmix op meta)
        (needs_convert OutputType DecoderOutputType) = DecodeDest.directOutput) ∧
    ((should_resample op rate meta || should_downmix op meta ||
        needs_convert OutputType DecoderOutputType) = true →
      decode_scratch_sz op rate meta OutputType DecoderOutputType =
        meta.length * meta.channels ∧
      decode_destination (should_resample op rate meta) (should_downmix op meta)
        (needs_convert OutputType DecoderOutputType) = DecodeDest.scratchBuffer) := by
  constructor
  · intro h1 h2 h3
    constructor
    · simp [decode_scratch_sz, h1, h2, h3]
    · simp [decode_destination, h1, h2, h3]
  · intro h
    constructor
    · simp [decode_scratch_sz, h]
    · simp [decode_destination, h]

/-- Witness for C6: a plain float sample needs no scratch and decodes directly; the
downmix configuration routes through a 2000-element scratch buffer. -/
theorem C6_witness :
    (decode_scratch_sz opPlain 0 metaMono DALIDataType.FLOAT DALIDataType.FLOAT = 0 ∧
     decode_destination (should_resample opPlain 0 metaMono)
       (should_downmix opPlain metaMono)
       (needs_convert DALIDataType.FLOAT DALIDataType.FLOAT) =
       DecodeDest.directOutput) ∧
    (decode_scratch_sz opDownmix 0 metaPlain DALIDataType.INT16 DALIDataType.INT16 =
       metaPlain.length * metaPlain.channels ∧
     decode_destination (should_resample opDownmix 0 metaPlain)
       (should_downmix opDownmix metaPlain)
       (needs_convert DALIDataType.INT16 DALIDataType.INT16) =
       DecodeDest.scratchBuffer) :=
  ⟨(C6_decode_scratch_routing opPlain 0 metaMono DALIDataType.FLOAT
      DALIDataType.FLOAT).1 (by decide) (by decide) (by decide),
   (C6_decode_scratch_routing opDownmix 0 metaPlain DALIDataType.INT16
      DALIDataType.INT16).2 (by decide)⟩

/-- C7: a batch with a non-1D raw sample fails SetupImpl with InputShapeError, and a
batch whose element type is not uint8 fails with InputTypeError; in both cases the
outcome is the same for every decoder oracle, so no decode work on any sample is
started and the whole batch is aborted during Plan. -/
theorem C7_validation_fail_fast (op : AudioDecoderCpu) (rates : Nat → ℚ)
    (input : InputBatch) :
    ((∃ s ∈ input.samples, s.shape.length ≠ 1) →
      ∀ openf, SetupImpl op rates input openf =
        Except.error SetupError.InputShapeError) ∧
    ((∀ s ∈ input.samples, s.shape.length = 1) → input.elem_is_uint8 = false →
      ∀ openf, SetupImpl op rates input openf =
        Except.error SetupError.InputTypeError) := by
  constructor
  · rintro ⟨s, hs, hlen⟩ openf
    have hall : input.samples.all (fun t => t.shape.length == 1) = false := by
      rw [List.all_eq_false]
      exact ⟨s, hs, by simpa using hlen⟩
    simp [SetupImpl, hall]
  · intro hshape huint openf
    have hall : input.samples.all (fun t => t.shape.length == 1) = true := by
      rw [List.all_eq_true]
      intro t ht
      simpa using hshape t ht
    simp [SetupImpl, hall, huint]

/-- Witness for C7: a batch holding one 2D raw sample is rejected with
InputShapeError no matter what the decoders would return. -/
theorem C7_witness :
    SetupImpl opPlain (fun _ => 0)
      { samples := [⟨[2, 2], "bad.wav"⟩], elem_is_uint8 := true }
      (fun _ => Except.ok metaPlain) = Except.error SetupError.InputShapeError :=
  (C7_validation_fail_fast opPlain (fun _ => 0)
    { samples := [⟨[2, 2], "bad.wav"⟩], elem_is_uint8 := true }).1
    ⟨⟨[2, 2], "bad.wav"⟩, by simp, by decide⟩ (fun _ => Except.ok metaPlain)

/-- C9: on a valid batch both planned output arrays have exactly as many samples as
the input batch, the sampling-rate output is float, and every sampling-rate entry has
shape [1]. -/
theorem C9_output_counts (op : AudioDecoderCpu) (rates : Nat → ℚ)
    (input : InputBatch) (openf : Nat → Except String AudioMetadata)
    (res : SetupResult)
    (h : SetupImpl op rates input openf = Except.ok res) :
    res.output_desc.length = 2 ∧
    (res.output_desc.getD 0 default).shapes.length = input.samples.length ∧
    (res.output_desc.getD 1 default).shapes.length = input.samples.length ∧
    (res.output_desc.getD 1 default).dtype = DALIDataType.FLOAT ∧
    ∀ i, i < input.samples.length →
      (res.output_desc.getD 1 default).shapes.getD i [] = [1] := by
  obtain ⟨h1, h2, metas, hopen, hres⟩ := SetupImpl_ok_inv h
  subst hres
  refine ⟨rfl, by simp, by simp, rfl, ?_⟩
  intro i hi
  exact getD_map_range _ hi []

/-- Witness for C9: the one-sample plain batch plans one data tensor, one
sampling-rate scalar of shape [1], and a float sampling-rate array. -/
theorem C9_witness :
    SetupImpl opPlain (fun _ => 0) inputPlain (fun _ => Except.ok metaPlain) =
      Except.ok planPlain ∧
    planPlain.output_desc.length = 2 ∧
    (planPlain.output_desc.getD 0 default).shapes.length =
      inputPlain.samples.length ∧
    (planPlain.output_desc.getD 1 default).shapes.length =
      inputPlain.samples.length ∧
    (planPlain.output_desc.getD 1 default).dtype = DALIDataType.FLOAT ∧
    (planPlain.output_desc.getD 1 default).shapes.getD 0 [] = [1] := by
  have hsetup : SetupImpl opPlain (fun _ => 0) inputPlain
      (fun _ => Except.ok metaPlain) = Except.ok planPlain := by rfl
  have h := C9_output_counts opPlain (fun _ => 0) inputPlain
    (fun _ => Except.ok metaPlain) planPlain hsetup
  exact ⟨hsetup, h.1, h.2.1, h.2.2.1, h.2.2.2.1, h.2.2.2.2 0 (by decide)⟩

end DALI
